import Mathlib

/-
Verification of the availability-detection core of a product stock monitor
(amul_stock_monitor.py, class StockMonitor).

The Python code is shallowly embedded as total Lean functions:

* the tri-state verdict (True / False / None paired with a reason string)
  becomes `Option Bool × String`;
* the exception paths of each Python function become explicit constructors
  of an outcome type that the embedded function branches on, so that the
  Python invariant "never raises" is modelled by totality;
* the per-product status dictionary of the continuous monitor loop becomes
  an association list with Python dict get/set semantics.

Each definition is annotated with the source lines it embeds.
-/

namespace StockMonitor

/-- Substring test on character lists, used to embed the Python expression
text containment test (the `in` operator on strings): `containsSub needle hay`
is true exactly when needle occurs contiguously inside hay. -/
def containsSub (needle : List Char) : List Char → Bool
  | [] => needle.isPrefixOf []
  | hay@(_ :: t) => needle.isPrefixOf hay || containsSub needle t

/-- Embeds the repeated Python test (lines 196 and 227):
sold out occurring in alert text lowercased. -/
def containsSoldOut (text : String) : Bool :=
  containsSub "sold out".toList (text.toList.map Char.toLower)

/-- Outcome of the HTTP fetch and parse performed by check_stock_with_requests
(lines 209-237). The try block issues requests.get with a 10s timeout and calls
raise_for_status, then parses the body; every way the try block can end is one
constructor here. -/
inductive FetchOutcome where
  /-- The GET returned a success status and the body was parsed; the payload
  is the text of the first element matching the selector
  div.alert.alert-danger.mt-3, or none when no element matches
  (soup.select_one returning None). -/
  | success (alert : Option String)
  /-- A requests.RequestException was raised: network failure, timeout, or a
  non-success HTTP status turned into an exception by raise_for_status
  (lines 220-221, handler at 232-234). -/
  | requestError (msg : String)
  /-- Any other exception, e.g. during parsing (handler at lines 235-237). -/
  | otherError (msg : String)

/-- Embeds check_stock_with_requests (lines 209-237) as a total function of the
fetch outcome: the static page checker never raises; every failure becomes an
Indeterminate verdict (none) with a reason string, and a successful fetch is
classified by the sold-out alert test of lines 226-230. -/
def check_stock_with_requests : FetchOutcome → Option Bool × String
  | FetchOutcome.success alert =>
    match alert with
    | some t =>
      if containsSoldOut t then
        (some false, "Explicit \x27Sold Out\x27 alert found")
      else
        (some true, "No \x27Sold Out\x27 alert — assuming product is in stock")
    | none => (some true, "No \x27Sold Out\x27 alert — assuming product is in stock")
  | FetchOutcome.requestError m => (none, "Request failed: " ++ m)
  | FetchOutcome.otherError m => (none, "Error: " ++ m)

/-- Outcome of the Selenium navigation performed by check_stock_with_selenium
(lines 174-207) before the alert element is inspected. -/
inductive SeleniumOutcome where
  /-- setup_selenium_driver returned None (lines 177-180). -/
  | driverSetupFailed
  /-- handle_pincode_modal returned False (lines 185-186). -/
  | modalFailed
  /-- Any exception inside the try block, e.g. navigation failure or the 15s
  readyState wait timing out (handler at lines 205-207). -/
  | error (msg : String)
  /-- The page loaded; the payload is the text of the element found by
  find_element for selector div.alert.alert-danger, or none when
  NoSuchElementException was raised (lines 193-200). -/
  | loaded (alert : Option String)

/-- Embeds check_stock_with_selenium (lines 174-207). On a loaded page: an
absent alert element means in stock (line 200); an alert whose text contains
sold out case-insensitively means out of stock (lines 196-197); an alert with
any other text falls through the try block to the safety fallback at line 203,
also reported as out of stock. -/
def check_stock_with_selenium : SeleniumOutcome → Option Bool × String
  | SeleniumOutcome.driverSetupFailed => (none, "Selenium driver setup failed")
  | SeleniumOutcome.modalFailed => (none, "Failed to handle pincode modal")
  | SeleniumOutcome.error m => (none, "Selenium error: " ++ m)
  | SeleniumOutcome.loaded alert =>
    match alert with
    | none => (some true, "No \x27Sold Out\x27 alert — assuming product is in stock")
    | some t =>
      if containsSoldOut t then
        (some false, "Explicit \x27Sold Out\x27 alert found")
      else
        (some false, "Unable to determine stock status from alert element")

/-- Python dict lookup last_status.get(name) (line 359): the value stored for
the first matching key, none when the key is absent. -/
def lookupStatus : List (String × Bool) → String → Option Bool
  | [], _ => none
  | (k, b) :: t, n => if k = n then some b else lookupStatus t n

/-- Python dict assignment last_status[name] = b (line 368): replaces the value
at the first matching key, appends the binding when the key is absent. -/
def setStatus : List (String × Bool) → String → Bool → List (String × Bool)
  | [], n, b => [(n, b)]
  | (k, v) :: t, n, b => if k = n then (n, b) :: t else (k, v) :: setStatus t n b

/-- Embeds the Python membership test at line 359:
last_status.get(product_name) in [None, False]. -/
def unknownOrOut : Option Bool → Bool
  | none => true
  | some false => true
  | some true => false

/-- Embeds the per-product body of the continuous monitor loop,
monitor_products lines 353-368, as a function of the tracker dictionary, the
product name and the verdict. Returns whether a notification was sent
(lines 359-362) and the tracker state after the body: an Indeterminate verdict
(None) hits continue at lines 355-356, skipping both the notification branch
and the assignment at line 368. -/
def monitorStep (st : List (String × Bool)) (n : String) (v : Option Bool) :
    Bool × List (String × Bool) :=
  match v with
  | none => (false, st)
  | some b => (b && unknownOrOut (lookupStatus st n), setStatus st n b)

/-- The two notification channels: send_notification (email, lines 239-275)
and send_telegram_notification (lines 277-310). -/
inductive Channel where
  | email
  | telegram
deriving DecidableEq

/-- The channel sends attempted by one monitor loop body (lines 360-362): both
channels exactly when the notification branch is taken, none otherwise. -/
def stepChannels (st : List (String × Bool)) (n : String) (v : Option Bool) :
    List Channel :=
  if (monitorStep st n v).1 then [Channel.email, Channel.telegram] else []

/-- Runs the monitor loop body of monitor_products over a sequence of
(product name, verdict) observations (the inner for loop at lines 349-369,
iterated), starting from tracker state st. Returns the product names for which
a notification was sent, in order. -/
def monitorRun (st : List (String × Bool)) :
    List (String × Option Bool) → List String
  | [] => []
  | (n, v) :: es =>
    let r := monitorStep st n v
    (if r.1 then [n] else []) ++ monitorRun r.2 es

/-- What happens while run_single_check processes one product
(the loop body, lines 317-333). -/
inductive ProductResult where
  /-- The body ran to completion; check_stock_status returned this verdict and
  message. -/
  | ok (verdict : Option Bool) (message : String)
  /-- An exception escaped the loop body for this product (for example a
  KeyError from product[name] at line 318). -/
  | exn (msg : String)

/-- Embeds run_single_check (lines 312-340). The try block (line 316) wraps the
ENTIRE for loop, and the except handler (lines 335-336) sits outside the loop:
an exception raised while processing one product leaves the loop, so the
products after it are never processed. Returns the names of the products whose
processing was started, and whether the except handler ran. -/
def run_single_check : List (String × ProductResult) → List String × Bool
  | [] => ([], false)
  | (n, ProductResult.exn _) :: _ => ([n], true)
  | (n, ProductResult.ok _ _) :: rest =>
    let r := run_single_check rest
    (n :: r.1, r.2)

/-- True when no product in the list raises. -/
def allOk : List (String × ProductResult) → Bool
  | [] => true
  | (_, ProductResult.ok _ _) :: t => allOk t
  | (_, ProductResult.exn _) :: _ => false

/-- Python truthiness of an environment variable read:
os.getenv returns None when the variable is absent, and both None and the
empty string fail the if not test (line 282). -/
def falsyEnv : Option String → Bool
  | none => true
  | some s => s.isEmpty

/-- Embeds send_telegram_notification (lines 277-310): botToken and chatId are
the two environment reads (lines 279-280); postResult is the outcome of the
HTTP POST when one is attempted. Returns the success boolean and the number of
HTTP calls made: zero when either variable is missing (lines 282-283), exactly
one otherwise (line 302), with any POST exception caught at lines 308-310. -/
def send_telegram_notification (botToken chatId : Option String)
    (postResult : Except String Unit) : Bool × Nat :=
  if falsyEnv botToken || falsyEnv chatId then (false, 0)
  else
    match postResult with
    | Except.ok _ => (true, 1)
    | Except.error _ => (false, 1)

/-- The notification calls issued by the per-product branch of
run_single_check (lines 323-331): for an InStock verdict both
send_notification and send_telegram_notification are invoked (lines 328-329),
unconditionally on any channel configuration; for OutOfStock or Indeterminate
neither is. -/
def singleCheckNotifyCalls (verdict : Option Bool) : List Channel :=
  match verdict with
  | some true => [Channel.email, Channel.telegram]
  | _ => []

/-- Behaviour of the rendered page during handle_pincode_modal, one flag per
bounded wait or element probe in lines 107-155. -/
structure ModalEnv where
  /-- The modal container becomes visible within the 5s wait of
  lines 109-111. -/
  modalVisibleWithin5s : Bool
  /-- The text input becomes clickable within the 5s wait of
  lines 114-116. -/
  inputClickableWithin5s : Bool
  /-- A dropdown item with exactly the pincode text becomes clickable within
  the 10s wait of lines 133-135. -/
  dropdownMatchWithin10s : Bool
  /-- The submit button is found by find_element at line 144. -/
  submitButtonPresent : Bool
  /-- The modal container becomes invisible within the 10s wait of
  lines 153-155. -/
  modalInvisibleWithin10s : Bool
deriving DecidableEq

/-- The DOM interactions handle_pincode_modal can perform, in source order. -/
inductive DomAction where
  | waitModalVisible
  | waitInputClickable
  | clearInput
  | sendKeys (s : String)
  | waitDropdownItem (pincode : String)
  | clickDropdownItem
  | clickSubmit
  | pressEnter
  | waitModalInvisible
  | sleepSeconds (n : Nat)
deriving DecidableEq

/-- Embeds handle_pincode_modal (lines 95-163) for a product whose configured
pincode is the first argument (product.get(pincode), none when the key is
absent). Returns the boolean result and the trace of DOM interactions.
Control flow embedded: a falsy pincode returns True before touching the driver
(lines 101-102); a TimeoutException from either of the first two waits is
caught at lines 120-122 and returns True; the dropdown timeout is non-fatal
(lines 138-139); a missing submit button falls back to pressing Enter
(lines 147-150); the final invisibility wait timing out raises out of the
inner handlers into the outer except at lines 161-163, returning False. The
element interactions themselves (clear, send_keys, click) are modelled as
succeeding. -/
def handle_pincode_modal (pincode : Option String) (env : ModalEnv) :
    Bool × List DomAction :=
  match pincode with
  | none => (true, [])
  | some p =>
    if p.isEmpty then (true, [])
    else if !env.modalVisibleWithin5s then
      (true, [DomAction.waitModalVisible])
    else if !env.inputClickableWithin5s then
      (true, [DomAction.waitModalVisible, DomAction.waitInputClickable])
    else
      let fill := [DomAction.waitModalVisible, DomAction.waitInputClickable,
        DomAction.clearInput, DomAction.sendKeys p, DomAction.waitDropdownItem p]
      let drop := fill ++
        (if env.dropdownMatchWithin10s then [DomAction.clickDropdownItem] else [])
      let submit := drop ++
        (if env.submitButtonPresent then [DomAction.clickSubmit]
         else [DomAction.pressEnter])
      let wait := submit ++ [DomAction.waitModalInvisible]
      if !env.modalInvisibleWithin10s then (false, wait)
      else (true, wait ++ [DomAction.sleepSeconds 2])

/-- The boolean substring test agrees with the mathematical contiguous
substring relation on lists. -/
theorem containsSub_eq_true_iff (needle hay : List Char) :
    containsSub needle hay = true ↔ needle <:+: hay := by
  induction hay with
  | nil => simp [containsSub, List.isPrefixOf_iff_prefix]
  | cons a t ih =>
    simp [containsSub, List.isPrefixOf_iff_prefix, ih, List.infix_cons_iff]

/-- C2: the static (requests-based) checker classifies every fetched page by
the first danger-alert element alone: element present with text containing the
case-insensitive substring sold out yields OutOfStock with the explicit
sold-out-alert reason; element present with any other text, and element
entirely absent, both yield InStock with the assuming-available reason. -/
theorem requests_classifier_policy :
    (∀ t : String, List.IsInfix "sold out".toList (t.toList.map Char.toLower) →
      check_stock_with_requests (FetchOutcome.success (some t)) =
        (some false, "Explicit \x27Sold Out\x27 alert found")) ∧
    (∀ t : String, ¬ List.IsInfix "sold out".toList (t.toList.map Char.toLower) →
      check_stock_with_requests (FetchOutcome.success (some t)) =
        (some true, "No \x27Sold Out\x27 alert — assuming product is in stock")) ∧
    check_stock_with_requests (FetchOutcome.success none) =
      (some true, "No \x27Sold Out\x27 alert — assuming product is in stock") := by
  refine ⟨?_, ?_, rfl⟩
  · intro t h
    have hc : containsSoldOut t = true := (containsSub_eq_true_iff _ _).mpr h
    simp [check_stock_with_requests, hc]
  · intro t h
    have hc : containsSoldOut t = false := by
      cases hcs : containsSoldOut t with
      | false => rfl
      | true => exact absurd ((containsSub_eq_true_iff _ _).mp hcs) h
    simp [check_stock_with_requests, hc]

/-- Witness for requests_classifier_policy at a concrete sold-out page. -/
theorem requests_classifier_policy_witness :
    check_stock_with_requests (FetchOutcome.success (some "Sold Out")) =
      (some false, "Explicit \x27Sold Out\x27 alert found") :=
  requests_classifier_policy.1 "Sold Out" (by decide)

/-- C3: the dynamic (Selenium-based) checker on a rendered page: a missing
alert element yields InStock; an alert whose text contains case-insensitive
sold out yields OutOfStock; an alert present with any other text also yields
OutOfStock via the conservative fallback reason — unlike the static path,
which yields InStock on that same input. -/
theorem selenium_classifier_policy :
    check_stock_with_selenium (SeleniumOutcome.loaded none) =
      (some true, "No \x27Sold Out\x27 alert — assuming product is in stock") ∧
    (∀ t : String, List.IsInfix "sold out".toList (t.toList.map Char.toLower) →
      check_stock_with_selenium (SeleniumOutcome.loaded (some t)) =
        (some false, "Explicit \x27Sold Out\x27 alert found")) ∧
    (∀ t : String, ¬ List.IsInfix "sold out".toList (t.toList.map Char.toLower) →
      check_stock_with_selenium (SeleniumOutcome.loaded (some t)) =
        (some false, "Unable to determine stock status from alert element") ∧
      check_stock_with_requests (FetchOutcome.success (some t)) =
        (some true, "No \x27Sold Out\x27 alert — assuming product is in stock")) := by
  refine ⟨rfl, ?_, ?_⟩
  · intro t h
    have hc : containsSoldOut t = true := (containsSub_eq_true_iff _ _).mpr h
    simp [check_stock_with_selenium, hc]
  · intro t h
    have hc : containsSoldOut t = false := by
      cases hcs : containsSoldOut t with
      | false => rfl
      | true => exact absurd ((containsSub_eq_true_iff _ _).mp hcs) h
    exact ⟨by simp [check_stock_with_selenium, hc],
      by simp [check_stock_with_requests, hc]⟩

/-- Witness for selenium_classifier_policy: an alert present without sold-out
text is classified OutOfStock by the dynamic path. -/
theorem selenium_classifier_policy_witness :
    check_stock_with_selenium (SeleniumOutcome.loaded (some "Launching soon")) =
      (some false, "Unable to determine stock status from alert element") :=
  (selenium_classifier_policy.2.2 "Launching soon" (by decide)).1

/-- C1: in continuous-monitor mode, for every tracker state and every product,
a notification is sent exactly when the verdict is InStock and the recorded
status for that product is unknown (no entry) or OutOfStock; an OutOfStock
verdict records OutOfStock; and over verdict sequences from the unknown state,
InStock yields one notification, InStock then InStock still one, and
InStock then OutOfStock then InStock yields exactly two, the second at the
re-entry to InStock. -/
theorem monitor_transition_policy :
    (∀ (st : List (String × Bool)) (n : String) (v : Option Bool),
      (monitorStep st n v).1 = true ↔
        v = some true ∧
          (lookupStatus st n = none ∨ lookupStatus st n = some false)) ∧
    (∀ (st : List (String × Bool)) (n : String),
      (monitorStep st n (some false)).2 = setStatus st n false) ∧
    (∀ n : String, monitorRun [] [(n, some true)] = [n]) ∧
    (∀ n : String, monitorRun [] [(n, some true), (n, some true)] = [n]) ∧
    (∀ n : String,
      monitorRun [] [(n, some true), (n, some false), (n, some true)] =
        [n, n]) := by
  refine ⟨?_, fun st n => rfl, ?_, ?_, ?_⟩
  · intro st n v
    cases v with
    | none => simp [monitorStep]
    | some b =>
      cases b with
      | false => simp [monitorStep]
      | true =>
        cases h : lookupStatus st n with
        | none => simp [monitorStep, unknownOrOut, h]
        | some c => cases c <;> simp [monitorStep, unknownOrOut, h]
  · intro n
    simp [monitorRun, monitorStep, lookupStatus, setStatus, unknownOrOut]
  · intro n
    simp [monitorRun, monitorStep, lookupStatus, setStatus, unknownOrOut]
  · intro n
    simp [monitorRun, monitorStep, lookupStatus, setStatus, unknownOrOut]

/-- Witness for monitor_transition_policy: with no recorded entry, an InStock
verdict notifies. -/
theorem monitor_transition_policy_witness :
    (monitorStep [] "Widget" (some true)).1 = true :=
  (monitor_transition_policy.1 [] "Widget" (some true)).mpr ⟨rfl, Or.inl rfl⟩

/-- C4: an Indeterminate verdict (None) leaves the tracker dictionary
unchanged for every prior state, attempts neither notification channel, and
the loop moves on to the remaining observations. -/
theorem indeterminate_no_effect :
    (∀ (st : List (String × Bool)) (n : String),
      monitorStep st n none = (false, st)) ∧
    (∀ (st : List (String × Bool)) (n : String), stepChannels st n none = []) ∧
    (∀ (st : List (String × Bool)) (n : String)
      (es : List (String × Option Bool)),
      monitorRun st ((n, none) :: es) = monitorRun st es) := by
  refine ⟨fun st n => rfl, ?_, ?_⟩
  · intro st n
    simp [stepChannels, monitorStep]
  · intro st n es
    simp [monitorRun, monitorStep]

/-- C5 counterexample: in single-check mode an exception while processing the
first product stops the pass; the second product is never checked, refuting
the claim that remaining products are still checked. -/
theorem single_check_abort_counterexample :
    run_single_check
        [("A", ProductResult.exn "KeyError"),
         ("B", ProductResult.ok (some true) "in stock")] = (["A"], true) ∧
    "B" ∉ (run_single_check
        [("A", ProductResult.exn "KeyError"),
         ("B", ProductResult.ok (some true) "in stock")]).1 := by
  refine ⟨rfl, ?_⟩
  simp [run_single_check]

/-- C5 amended: the exception raised while processing one product is caught by
the handler outside the for loop, so run_single_check returns normally with
the handler flag set, having processed exactly the products before the failing
one plus the failing one itself; the remaining products are skipped. -/
theorem single_check_exception_policy
    (ps rest : List (String × ProductResult)) (n m : String)
    (h : allOk ps = true) :
    run_single_check (ps ++ (n, ProductResult.exn m) :: rest) =
      (ps.map Prod.fst ++ [n], true) := by
  induction ps with
  | nil => rfl
  | cons hd tl ih =>
    obtain ⟨k, r⟩ := hd
    cases r with
    | exn msg => simp [allOk] at h
    | ok v msg =>
      have ht : allOk tl = true := by simpa [allOk] using h
      simp [run_single_check, ih ht]

/-- Witness for single_check_exception_policy on a concrete three-product
list whose second product raises. -/
theorem single_check_exception_policy_witness :
    run_single_check
        [("A", ProductResult.ok (some false) "out of stock"),
         ("C", ProductResult.exn "boom"),
         ("D", ProductResult.ok (some true) "in stock")] = (["A", "C"], true) :=
  single_check_exception_policy
    [("A", ProductResult.ok (some false) "out of stock")]
    [("D", ProductResult.ok (some true) "in stock")] "C" "boom" rfl

/-- C6: the static checker is a total function of the fetch outcome — every
exception path (request failure including non-success status, and any other
error) yields an Indeterminate verdict (none) with a descriptive reason
string, and every successful fetch yields a non-None verdict. -/
theorem requests_checker_never_raises :
    (∀ m : String, check_stock_with_requests (FetchOutcome.requestError m) =
      (none, "Request failed: " ++ m)) ∧
    (∀ m : String, check_stock_with_requests (FetchOutcome.otherError m) =
      (none, "Error: " ++ m)) ∧
    (∀ alert : Option String,
      (check_stock_with_requests (FetchOutcome.success alert)).1.isSome =
        true) := by
  refine ⟨fun m => rfl, fun m => rfl, ?_⟩
  intro alert
  cases alert with
  | none => rfl
  | some t =>
    simp only [check_stock_with_requests]
    split <;> rfl

/-- C7: with no configured pincode (key absent, and also configured empty),
handle_pincode_modal returns success immediately with an empty DOM interaction
trace, for every page behaviour. -/
theorem modal_no_pincode_no_dom :
    (∀ env : ModalEnv, handle_pincode_modal none env = (true, [])) ∧
    (∀ env : ModalEnv, handle_pincode_modal (some "") env = (true, [])) := by
  exact ⟨fun env => rfl, fun env => rfl⟩

/-- C8: with a configured pincode, when the modal container never becomes
visible within the 5s wait, the TimeoutException is caught and
handle_pincode_modal returns success. -/
theorem modal_never_visible_success (p : String) (env : ModalEnv)
    (hp : p.isEmpty = false) (hv : env.modalVisibleWithin5s = false) :
    handle_pincode_modal (some p) env = (true, [DomAction.waitModalVisible]) := by
  simp [handle_pincode_modal, hp, hv]

/-- Witness for modal_never_visible_success at a concrete pincode and a page
whose modal never appears. -/
theorem modal_never_visible_success_witness :
    handle_pincode_modal (some "110001")
        ⟨false, false, false, false, false⟩ =
      (true, [DomAction.waitModalVisible]) :=
  modal_never_visible_success "110001"
    ⟨false, false, false, false, false⟩ rfl rfl

/-- C10: with a configured pincode, when the modal becomes visible but its
text input does not become clickable within the following 5s wait, the
TimeoutException is caught by the same handler and handle_pincode_modal
returns success having performed only the two waits — in particular the
pincode is never typed. -/
theorem modal_input_timeout_success (p : String) (env : ModalEnv)
    (hp : p.isEmpty = false) (hv : env.modalVisibleWithin5s = true)
    (hc : env.inputClickableWithin5s = false) :
    handle_pincode_modal (some p) env =
      (true, [DomAction.waitModalVisible, DomAction.waitInputClickable]) ∧
    DomAction.sendKeys p ∉ (handle_pincode_modal (some p) env).2 := by
  have he : handle_pincode_modal (some p) env =
      (true, [DomAction.waitModalVisible, DomAction.waitInputClickable]) := by
    simp [handle_pincode_modal, hp, hv, hc]
  refine ⟨he, ?_⟩
  rw [he]
  simp

/-- Witness for modal_input_timeout_success at a concrete pincode and a page
with a visible modal whose input never becomes clickable. -/
theorem modal_input_timeout_success_witness :
    handle_pincode_modal (some "110001")
        ⟨true, false, true, true, true⟩ =
      (true, [DomAction.waitModalVisible, DomAction.waitInputClickable]) :=
  (modal_input_timeout_success "110001"
    ⟨true, false, true, true, true⟩ rfl rfl rfl).1

/-- C9: when the bot token or the chat id environment variable is absent,
send_telegram_notification returns False having made zero HTTP calls; and the
notification block of run_single_check invokes the email channel for an
InStock verdict unconditionally — its call list does not depend on the chat
configuration at all, so the email send is still attempted. -/
theorem telegram_skip_policy :
    (∀ (chatId : Option String) (post : Except String Unit),
      send_telegram_notification none chatId post = (false, 0)) ∧
    (∀ (botToken : Option String) (post : Except String Unit),
      send_telegram_notification botToken none post = (false, 0)) ∧
    singleCheckNotifyCalls (some true) = [Channel.email, Channel.telegram] ∧
    Channel.email ∈ singleCheckNotifyCalls (some true) := by
  refine ⟨?_, ?_, rfl, ?_⟩
  · intro chatId post
    simp [send_telegram_notification, falsyEnv]
  · intro botToken post
    simp [send_telegram_notification, falsyEnv]
  · simp [singleCheckNotifyCalls]

end StockMonitor
